import Mathlib

/-!
Shallow embedding of the Radial Combination Engine of `funcs.py`
(EU HFR NODE historical-data processing application).

The embedding follows the source line by line:
  * `performRadialCombination` (funcs.py, lines 120-202) combines the Radial
    observations of one network and one timestamp into a Total;
  * `selectRadials` (funcs.py, lines 205-299) lists the radial files pushed by
    the stations of a network and builds the rows describing them.

DataFrames are embedded as lists of structure values, pandas column access as
field access, and Python exceptions as an `Except` result.  External
collaborators that live outside this repository (`calc.py`, `totals.py`,
`common.py`, the filesystem and the `Radial` parser) are modelled from the
spec, each with a doc comment saying so.
-/

namespace Funcs

/-- The two radial file formats handled by the pipeline: `.ruv` (CODAR) and
`.crad_ascii` (WERA/LERA).  `selectRadials` only ever lists files of these two
extensions, so the `extension` column of the combination DataFrame is embedded
as this closed enumeration. -/
inductive Ext where
  | ruv
  | cradAscii
deriving DecidableEq, Repr, Inhabited

/-- The per-sample data carried by a `Radial` object: raw velocities (`VELO`)
and covariance-like quality values (`HCSS`). -/
structure RadialData where
  VELO : List ℚ
  HCSS : List ℚ
deriving DecidableEq, Repr, Inhabited

/-- One row of the `combRad` DataFrame handed to `performRadialCombination`:
the format tag, the three lifecycle flags relevant to combination, the
datetime string and the `Radial` object. -/
structure RadialRow where
  extension : Ext
  NRT_combined_flag : ℕ
  NRT_processed_flag_integrated_network : ℕ
  datetime : String
  Radial : RadialData
deriving DecidableEq, Repr, Inhabited

/-- The single row of the `networkData` DataFrame used by
`performRadialCombination` (`networkData.iloc[0]`). -/
structure NetworkData where
  network_id : String
  radial_combination : ℕ
  geospatial_lon_min : ℚ
  geospatial_lon_max : ℚ
  geospatial_lat_min : ℚ
  geospatial_lat_max : ℚ
  grid_resolution : ℚ
  combination_search_radius : ℚ
deriving DecidableEq, Repr, Inhabited

/-- Errors the embedded code can raise: Python runtime errors, plus the
InvalidGeometry failure the spec assigns to the external Grid Builder for a
malformed bounding box or a non-positive resolution. -/
inductive PyError where
  | nameError (name : String)
  | unboundLocalError (name : String)
  | valueError (msg : String)
  | invalidGeometry
deriving DecidableEq, Repr, Inhabited

/-- Modelled from the spec: the Grid Builder (`calc.py`, not under `src/`)
constructs the evaluation lattice from a bounding box and a resolution with a
method per sensor family; the embedding records the method and its
parameters. -/
inductive Grid where
  | fromBB (lonMin lonMax latMin latMax gridResolution : ℚ)
  | fromBBwera (lonMin lonMax latMin latMax gridResolution : ℚ)
deriving DecidableEq, Repr, Inhabited

/-- Modelled from the spec: `createLonLatGridFromBB` (`calc.py`, not under
`src/`), the bounding-box grid construction for the primary family; it fails
with InvalidGeometry when `lonMin ≥ lonMax`, `latMin ≥ latMax` or the
resolution is not positive (spec, section 4.1). -/
def createLonLatGridFromBB (lonMin lonMax latMin latMax gridResolution : ℚ) :
    Except PyError Grid :=
  if lonMin ≥ lonMax ∨ latMin ≥ latMax ∨ gridResolution ≤ 0 then
    Except.error PyError.invalidGeometry
  else
    Except.ok (Grid.fromBB lonMin lonMax latMin latMax gridResolution)

/-- Modelled from the spec: `createLonLatGridFromBBwera` (`calc.py`, not under
`src/`), the bounding-box grid construction for the secondary family, with the
same InvalidGeometry failure as the primary method. -/
def createLonLatGridFromBBwera (lonMin lonMax latMin latMax gridResolution : ℚ) :
    Except PyError Grid :=
  if lonMin ≥ lonMax ∨ latMin ≥ latMax ∨ gridResolution ≤ 0 then
    Except.error PyError.invalidGeometry
  else
    Except.ok (Grid.fromBBwera lonMin lonMax latMin latMax gridResolution)

/-- The resolution parameter a `Grid` was built with. -/
def gridRes : Grid → ℚ
  | Grid.fromBB _ _ _ _ r => r
  | Grid.fromBBwera _ _ _ _ r => r

/-- The `TotalEstimate` produced by one combination, as finalized by
`performRadialCombination`: the inputs handed to the least-squares combiner,
the bounding-box metadata attached afterwards, and the two result flags. -/
structure Total where
  obs : List RadialRow
  grid : Grid
  searchRadius : ℚ
  gridResolution : ℚ
  timeStamp : String
  lonMin : ℚ
  lonMax : ℚ
  latMin : ℚ
  latMax : ℚ
  gridResolutionKm : ℚ
  is_combined : Bool
  is_wera : Bool
deriving DecidableEq, Repr, Inhabited

/-- Modelled from the spec: `combineRadials` (`totals.py`, not under `src/`)
solves the least-squares combination and returns the Total with a warning
string; the embedding records the inputs it received, leaving the metadata and
flags for the orchestrator to set. -/
def combineRadials (combRad : List RadialRow) (gridGS : Grid)
    (searchRadius gridResolution : ℚ) (timeStamp : String) : Total × String :=
  ({ obs := combRad, grid := gridGS, searchRadius := searchRadius,
     gridResolution := gridResolution, timeStamp := timeStamp,
     lonMin := 0, lonMax := 0, latMin := 0, latMax := 0, gridResolutionKm := 0,
     is_combined := false, is_wera := false }, "")

/-- Modelled from the spec: `addBoundingBoxMetadata` (`common.py`, not under
`src/`) attaches the bounding box and the resolution metadata to the Total. -/
def addBoundingBoxMetadata (T : Total)
    (lonMin lonMax latMin latMax gridResolutionKm : ℚ) : Total :=
  { T with lonMin := lonMin, lonMax := lonMax, latMin := latMin, latMax := latMax,
           gridResolutionKm := gridResolutionKm }

/-- `combRad.extension.unique().tolist()` (funcs.py, line 163): the distinct
format tags of the observation set, first occurrences first. -/
def uniqueList : List Ext → List Ext
  | [] => []
  | e :: rest => e :: ((uniqueList rest).filter fun x => x != e)

/-- The grid-construction selection of funcs.py, lines 164-170: a
single-format set uses the method of its format, any other set uses the
primary bounding-box method. -/
def selectGrid (exts : List Ext) (lonMin lonMax latMin latMax gridResolution : ℚ) :
    Except PyError Grid :=
  match exts with
  | [Ext.ruv] => createLonLatGridFromBB lonMin lonMax latMin latMax gridResolution
  | [Ext.cradAscii] => createLonLatGridFromBBwera lonMin lonMax latMin latMax gridResolution
  | _ => createLonLatGridFromBB lonMin lonMax latMin latMax gridResolution

/-- The value of a decimal digit character. -/
def digitVal (c : Char) : ℕ :=
  c.toNat - 48

/-- The Gregorian leap-year rule. -/
def isLeapYear (y : ℕ) : Bool :=
  (y % 4 == 0 && y % 100 != 0) || (y % 400 == 0)

/-- Days in a month of the Gregorian calendar. -/
def daysInMonth (y m : ℕ) : ℕ :=
  if m == 2 then (if isLeapYear y then 29 else 28)
  else if m == 4 || m == 6 || m == 9 || m == 11 then 30
  else 31

/-- Modelled from the spec: the timestamp parse of funcs.py, line 182
(`datetime.strptime` with format string %Y-%m-%d %H:%M:%S, external Python
standard library).  It accepts exactly the canonical `YYYY-MM-DD HH:MM:SS`
strings the ingestion step produces (the format `selectRadials` writes into
the `datetime` column) with calendar-valid fields, returning the validated
string, and raises ValueError on anything else. -/
def strptimeYmdHMS (s : String) : Option String :=
  match s.data with
  | [y1, y2, y3, y4, d1, mo1, mo2, d2, da1, da2, sp, h1, h2, c1, mi1, mi2, c2, se1, se2] =>
      if y1.isDigit && y2.isDigit && y3.isDigit && y4.isDigit && d1 == '-'
          && mo1.isDigit && mo2.isDigit && d2 == '-' && da1.isDigit && da2.isDigit
          && sp == ' ' && h1.isDigit && h2.isDigit && c1 == ':'
          && mi1.isDigit && mi2.isDigit && c2 == ':' && se1.isDigit && se2.isDigit then
        let year := ((digitVal y1 * 10 + digitVal y2) * 10 + digitVal y3) * 10 + digitVal y4
        let month := digitVal mo1 * 10 + digitVal mo2
        let day := digitVal da1 * 10 + digitVal da2
        let hour := digitVal h1 * 10 + digitVal h2
        let minute := digitVal mi1 * 10 + digitVal mi2
        let second := digitVal se1 * 10 + digitVal se2
        if 1 ≤ year ∧ 1 ≤ month ∧ month ≤ 12 ∧ 1 ≤ day ∧ day ≤ daysInMonth year month
            ∧ hour ≤ 23 ∧ minute ≤ 59 ∧ second ≤ 59 then
          some s
        else
          none
      else
        none
  | _ => none

/-- The `is_wera` assignment of funcs.py, lines 194-200: true for a uniform
`.crad_ascii` set, false for a uniform `.ruv` set and for any other set. -/
def isWeraFlag : List Ext → Bool
  | [Ext.ruv] => false
  | [Ext.cradAscii] => true
  | _ => false

/-- The eligibility check of funcs.py, line 152: for any network other than
HFR-WesternItaly, some candidate must still have `NRT_combined_flag` 0; for
HFR-WesternItaly, some candidate must still have
`NRT_processed_flag_integrated_network` 0. -/
def radialsNotYetCombined (combRad : List RadialRow) (networkData : NetworkData) : Bool :=
  ((networkData.network_id != "HFR-WesternItaly")
      && combRad.any fun r => r.NRT_combined_flag == 0)
  || ((networkData.network_id == "HFR-WesternItaly")
      && combRad.any fun r => r.NRT_processed_flag_integrated_network == 0)

/-- funcs.py, lines 120-202.  The function builds the empty `combTot` holder
(line 147) but never fills nor returns it; it returns the local `T`
(line 202), so every path that does not produce a Total raises
`UnboundLocalError` on `T`.  The grid construction (lines 162-170) runs
first and propagates InvalidGeometry on a malformed box; on a mixed-format
set, line 174 then iterates over the undefined name `combRadcombRad`, raising
`NameError` before any `VELO` or `HCSS` sample is rescaled; line 182's
`strptime` raises ValueError on an unparseable `datetime`.  The DataFrame
`combRad` is threaded through as explicit state; no reachable path modifies
it. -/
def performRadialCombination (combRad : List RadialRow) (networkData : NetworkData) :
    Except PyError Total × List RadialRow :=
  if networkData.radial_combination == 1 then
    if radialsNotYetCombined combRad networkData then
      let lonMin := networkData.geospatial_lon_min
      let lonMax := networkData.geospatial_lon_max
      let latMin := networkData.geospatial_lat_min
      let latMax := networkData.geospatial_lat_max
      let gridResolution := networkData.grid_resolution * 1000
      let exts := uniqueList (combRad.map fun r => r.extension)
      match selectGrid exts lonMin lonMax latMin latMax gridResolution with
      | Except.error e => (Except.error e, combRad)
      | Except.ok gridGS =>
        if exts.length > 1 then
          (Except.error (PyError.nameError "combRadcombRad"), combRad)
        else
          let searchRadius := networkData.combination_search_radius * 1000
          match strptimeYmdHMS combRad.headI.datetime with
          | none => (Except.error (PyError.valueError "time data does not match format"), combRad)
          | some timeStamp =>
            let TW := combineRadials combRad gridGS searchRadius gridResolution timeStamp
            let T0 := addBoundingBoxMetadata TW.1 lonMin lonMax latMin latMax (gridResolution / 1000)
            let T1 := { T0 with is_combined := true }
            let T2 := { T1 with is_wera := isWeraFlag exts }
            (Except.ok T2, combRad)
    else
      (Except.error (PyError.unboundLocalError "T"), combRad)
  else
    (Except.error (PyError.unboundLocalError "T"), combRad)

/-- The Total of a successful combination result, if any. -/
def okValue : Except PyError Total → Option Total
  | Except.ok T => some T
  | Except.error _ => none

/-- Whether a combination result is a successfully produced Total. -/
def isOkResult (r : Except PyError Total) : Bool :=
  (okValue r).isSome

/-- Modelled from the spec: the outcome of parsing one radial file with the
`Radial` constructor (`radials.py`, not under `src/`) and of reading its size
from the filesystem: the two formatted time strings and the size in
Kbytes. -/
structure FileInfo where
  timestamp : String
  datetime : String
  filesize : ℚ
deriving DecidableEq, Repr, Inhabited

/-- Modelled from the spec: one file found by the recursive glob under a
station's input folder.  `info = none` models an exception raised while
parsing the file or reading its size (the inner `try` of funcs.py,
lines 264-294). -/
structure FileRec where
  dirname : String
  basename : String
  fileExt : String
  info : Option FileInfo
deriving DecidableEq, Repr, Inhabited

/-- One row of the `stationData` DataFrame given to `selectRadials`, together
with the filesystem facts the function observes: whether the input folder
exists and which files the glob lists under it. -/
structure StationRec where
  station_id : String
  radial_input_folder_path : String
  folder_exists : Bool
  manufacturer : String
  files : List FileRec
deriving DecidableEq, Repr, Inhabited

/-- One row of the `radialsToBeProcessed` DataFrame built by
`selectRadials` (funcs.py, lines 282-288). -/
structure RadialFileRow where
  filename : String
  filepath : String
  network_id : String
  station_id : String
  timestamp : String
  datetime : String
  reception_date : String
  filesize : ℚ
  extension : String
  NRT_processed_flag : ℕ
  NRT_processed_flag_integrated_network : ℕ
  NRT_combined_flag : ℕ
deriving DecidableEq, Repr, Inhabited

/-- Python's `str.strip()`: drop leading and trailing whitespace. -/
def trimStr (s : String) : String :=
  ⟨(((s.data.dropWhile Char.isWhitespace).reverse.dropWhile Char.isWhitespace).reverse)⟩

/-- Python's `str.lower()`. -/
def toLowerStr (s : String) : String :=
  ⟨s.data.map Char.toLower⟩

/-- Python's substring test `pat in s`. -/
def containsSub (s pat : String) : Bool :=
  s.data.tails.any fun t => pat.data.isPrefixOf t

/-- The manufacturer branching of funcs.py, lines 254-260: `none` models a
manufacturer matching none of the three cases, which leaves the local
`fileTypeWildcard` unbound and raises `NameError` at the glob call, caught by
the outer `except` (line 296). -/
def fileTypeWildcard (manufacturer : String) : Option String :=
  if containsSub (toLowerStr manufacturer) "codar" then some "**/*.ruv"
  else if containsSub (toLowerStr manufacturer) "wera" then some "**/*.crad_ascii"
  else if containsSub (toLowerStr manufacturer) "lera" then some "**/*.crad_ascii"
  else none

/-- The row built for one radial file (funcs.py, lines 263-291): `none` when
parsing the file raised and the inner `except` (line 293) skipped it. -/
def rowOfFile (networkID now stationID : String) (f : FileRec) : Option RadialFileRow :=
  match f.info with
  | none => none
  | some i =>
      some { filename := f.basename, filepath := f.dirname, network_id := networkID,
             station_id := stationID, timestamp := i.timestamp, datetime := i.datetime,
             reception_date := now, filesize := i.filesize, extension := f.fileExt,
             NRT_processed_flag := 0, NRT_processed_flag_integrated_network := 0,
             NRT_combined_flag := 0 }

/-- Modelled from the spec: the recursive glob of funcs.py, line 262
(external filesystem enumeration).  Of the files under the station folder it
lists exactly those whose name matches the wildcard; the two wildcards the
program ever builds match exactly the files with the corresponding
extension. -/
def globFiles (wildcard : String) (files : List FileRec) : List FileRec :=
  files.filter fun f => ("**/*" ++ f.fileExt) == wildcard

/-- The conditional wildcard assignment of funcs.py, lines 254-260.
`fileTypeWildcard` is a local of `selectRadials`, not of the station loop
body, so a manufacturer matching no family leaves the value assigned by an
earlier iteration in place. -/
def effectiveWildcard (wc : Option String) (st : StationRec) : Option String :=
  match fileTypeWildcard st.manufacturer with
  | some w => some w
  | none => wc

/-- The rows one station contributes (funcs.py, lines 240-297), given the
wildcard state reaching its iteration: an empty or missing input folder only
prints a message; a still-unbound wildcard raises `NameError` at the glob
call, caught by the outer `except` (line 296); otherwise the glob result is
processed file by file, the inner `except` (line 293) skipping files whose
parsing raises. -/
def stationRows (networkID now : String) (wc : Option String) (st : StationRec) :
    List RadialFileRow :=
  if trimStr st.radial_input_folder_path == "" then []
  else if !st.folder_exists then []
  else
    match effectiveWildcard wc st with
    | none => []
    | some w => (globFiles w st.files).filterMap (rowOfFile networkID now st.station_id)

/-- The wildcard state after one station's iteration: the assignment of
lines 254-260 runs only when the input folder is specified and exists. -/
def stationWildcard (wc : Option String) (st : StationRec) : Option String :=
  if trimStr st.radial_input_folder_path == "" then wc
  else if !st.folder_exists then wc
  else effectiveWildcard wc st

/-- The station loop of `selectRadials` (funcs.py, lines 239-297) with the
`fileTypeWildcard` local threaded across iterations. -/
def selectRadialsAux (networkID now : String) :
    List StationRec → Option String → List RadialFileRow
  | [], _ => []
  | st :: rest, wc =>
      stationRows networkID now wc st
        ++ selectRadialsAux networkID now rest (stationWildcard wc st)

/-- The wildcard state after a list of station iterations. -/
def wildcardAfter : Option String → List StationRec → Option String
  | wc, [] => wc
  | wc, st :: rest => wildcardAfter (stationWildcard wc st) rest

/-- funcs.py, lines 205-299.  `now` stands for `dt.datetime.utcnow()`
formatted as the reception date; the wildcard local starts unbound. -/
def selectRadials (networkID now : String) (stationData : List StationRec) :
    List RadialFileRow :=
  selectRadialsAux networkID now stationData none

/-- The Total built by the success path of `performRadialCombination`, given
the grid its grid construction returned. -/
def combinedTotal (combRad : List RadialRow) (nd : NetworkData) (gridGS : Grid) : Total :=
  let gridResolution := nd.grid_resolution * 1000
  let exts := uniqueList (combRad.map fun r => r.extension)
  { obs := combRad,
    grid := gridGS,
    searchRadius := nd.combination_search_radius * 1000,
    gridResolution := gridResolution,
    timeStamp := combRad.headI.datetime,
    lonMin := nd.geospatial_lon_min, lonMax := nd.geospatial_lon_max,
    latMin := nd.geospatial_lat_min, latMax := nd.geospatial_lat_max,
    gridResolutionKm := gridResolution / 1000,
    is_combined := true,
    is_wera := isWeraFlag exts }

/-- A network with radial combination enabled, under the default eligibility
rule (its identity is not HFR-WesternItaly). -/
def netStd : NetworkData :=
  { network_id := "HFR-TirLig", radial_combination := 1,
    geospatial_lon_min := 7, geospatial_lon_max := 10,
    geospatial_lat_min := 43, geospatial_lat_max := 44,
    grid_resolution := 2, combination_search_radius := 3 }

/-- The same network with radial combination disabled. -/
def netDisabled : NetworkData :=
  { netStd with radial_combination := 0 }

/-- One pending CODAR observation. -/
def obsEligDefault : List RadialRow :=
  [{ extension := Ext.ruv, NRT_combined_flag := 0,
     NRT_processed_flag_integrated_network := 1,
     datetime := "2024-06-01 00:00:00", Radial := { VELO := [1], HCSS := [2] } }]

/-- A mixed-format observation set: one CODAR and one WERA observation, both
pending. -/
def obsMixed : List RadialRow :=
  [{ extension := Ext.ruv, NRT_combined_flag := 0,
     NRT_processed_flag_integrated_network := 0,
     datetime := "2024-06-01 00:00:00", Radial := { VELO := [5], HCSS := [7] } },
   { extension := Ext.cradAscii, NRT_combined_flag := 0,
     NRT_processed_flag_integrated_network := 0,
     datetime := "2024-06-01 00:00:00", Radial := { VELO := [3], HCSS := [4] } }]

/-- One observation whose lifecycle flags are all already set. -/
def obsDone : List RadialRow :=
  [{ extension := Ext.ruv, NRT_combined_flag := 1,
     NRT_processed_flag_integrated_network := 1,
     datetime := "2024-06-01 00:00:00", Radial := { VELO := [5], HCSS := [7] } }]

/-- Two pending CODAR observations of the same timestamp. -/
def obsPending : List RadialRow :=
  [{ extension := Ext.ruv, NRT_combined_flag := 0,
     NRT_processed_flag_integrated_network := 0,
     datetime := "2024-06-01 01:00:00", Radial := { VELO := [1], HCSS := [2] } },
   { extension := Ext.ruv, NRT_combined_flag := 0,
     NRT_processed_flag_integrated_network := 0,
     datetime := "2024-06-01 01:00:00", Radial := { VELO := [3], HCSS := [4] } }]

/-- One pending WERA observation. -/
def obsWera : List RadialRow :=
  [{ extension := Ext.cradAscii, NRT_combined_flag := 0,
     NRT_processed_flag_integrated_network := 0,
     datetime := "2024-06-01 02:00:00", Radial := { VELO := [2], HCSS := [3] } }]

/-- The Total produced by combining `obsWera` under `netStd`. -/
def totWera : Total :=
  (okValue (performRadialCombination obsWera netStd).1).getD default

/-- A radial file that parses successfully. -/
def fileGood : FileRec :=
  { dirname := "/data/HFR-TirLig/SITE", basename := "RDLm_SITE_2024_06_01_0000.ruv",
    fileExt := ".ruv",
    info := some { timestamp := "2024 06 01 00 00 00",
                   datetime := "2024-06-01 00:00:00", filesize := 120 } }

/-- A radial file whose parsing raises. -/
def fileBad : FileRec :=
  { dirname := "/data/HFR-TirLig/SITE", basename := "RDLm_SITE_2024_06_01_0100.ruv",
    fileExt := ".ruv", info := none }

/-- A CODAR station with one good radial file. -/
def stationGood : StationRec :=
  { station_id := "SITE", radial_input_folder_path := "/data/HFR-TirLig/SITE",
    folder_exists := true, manufacturer := "CODAR Ocean Sensors", files := [fileGood] }

/-- A station whose manufacturer matches none of the handled families, so its
processing raises `NameError`. -/
def stationBadMan : StationRec :=
  { station_id := "BADM", radial_input_folder_path := "/data/HFR-TirLig/BADM",
    folder_exists := true, manufacturer := "Acme Radar", files := [fileGood] }

/-- The row `selectRadials` builds for `fileGood` at `stationGood`. -/
def rowGood : RadialFileRow :=
  (rowOfFile "HFR-TirLig" "2024-06-02 00:00:00" "SITE" fileGood).getD default

theorem mem_uniqueList (a : Ext) (l : List Ext) : a ∈ uniqueList l ↔ a ∈ l := by
  induction l with
  | nil => simp [uniqueList]
  | cons e rest ih =>
    by_cases hae : a = e
    · subst hae; simp [uniqueList]
    · simp [uniqueList, List.mem_filter, hae, ih, bne_iff_ne]

theorem uniqueList_all_eq (l : List Ext) (e : Ext) (hne : l ≠ [])
    (hall : ∀ x ∈ l, x = e) : uniqueList l = [e] := by
  cases l with
  | nil => exact absurd rfl hne
  | cons a rest =>
    have ha : a = e := hall a (List.mem_cons_self a rest)
    subst ha
    have hfil : ((uniqueList rest).filter fun x => x != a) = [] := by
      rw [List.filter_eq_nil_iff]
      intro x hx
      have hx2 : x = a :=
        hall x (List.mem_cons_of_mem a ((mem_uniqueList x rest).mp hx))
      simp [hx2]
    simp [uniqueList, hfil]

theorem isWeraFlag_eq_true_iff (u : List Ext) :
    isWeraFlag u = true ↔ u = [Ext.cradAscii] := by
  match u with
  | [] => simp [isWeraFlag]
  | [Ext.ruv] => simp [isWeraFlag]
  | [Ext.cradAscii] => simp [isWeraFlag]
  | x :: y :: t => cases x <;> simp [isWeraFlag]

theorem selectGrid_of_ne (u : List Ext) (a b c d r : ℚ) (h : u ≠ [Ext.cradAscii]) :
    selectGrid u a b c d r = createLonLatGridFromBB a b c d r := by
  match u with
  | [] => rfl
  | [Ext.ruv] => rfl
  | [Ext.cradAscii] => exact absurd rfl h
  | x :: y :: t => cases x <;> rfl

theorem strptimeYmdHMS_eq (s r : String) (h : strptimeYmdHMS s = some r) : r = s := by
  unfold strptimeYmdHMS at h
  split at h
  · split at h
    · dsimp only at h
      split at h
      · exact (Option.some.inj h).symm
      · cases h
    · cases h
  · cases h

theorem createLonLatGridFromBB_error (a b c d r : ℚ) (e : PyError)
    (h : createLonLatGridFromBB a b c d r = Except.error e) :
    e = PyError.invalidGeometry := by
  unfold createLonLatGridFromBB at h
  split at h
  · exact (Except.error.inj h).symm
  · cases h

theorem createLonLatGridFromBBwera_error (a b c d r : ℚ) (e : PyError)
    (h : createLonLatGridFromBBwera a b c d r = Except.error e) :
    e = PyError.invalidGeometry := by
  unfold createLonLatGridFromBBwera at h
  split at h
  · exact (Except.error.inj h).symm
  · cases h

theorem selectGrid_error (u : List Ext) (a b c d r : ℚ) (e : PyError)
    (h : selectGrid u a b c d r = Except.error e) : e = PyError.invalidGeometry := by
  match u with
  | [] => exact createLonLatGridFromBB_error a b c d r e h
  | [Ext.ruv] => exact createLonLatGridFromBB_error a b c d r e h
  | [Ext.cradAscii] => exact createLonLatGridFromBBwera_error a b c d r e h
  | x :: y :: t => cases x <;> exact createLonLatGridFromBB_error a b c d r e h

theorem gridRes_createLonLatGridFromBB (a b c d r : ℚ) (g : Grid)
    (h : createLonLatGridFromBB a b c d r = Except.ok g) : gridRes g = r := by
  unfold createLonLatGridFromBB at h
  split at h
  · cases h
  · have hg := Except.ok.inj h
    subst hg
    rfl

theorem gridRes_createLonLatGridFromBBwera (a b c d r : ℚ) (g : Grid)
    (h : createLonLatGridFromBBwera a b c d r = Except.ok g) : gridRes g = r := by
  unfold createLonLatGridFromBBwera at h
  split at h
  · cases h
  · have hg := Except.ok.inj h
    subst hg
    rfl

theorem gridRes_selectGrid (u : List Ext) (a b c d r : ℚ) (g : Grid)
    (h : selectGrid u a b c d r = Except.ok g) : gridRes g = r := by
  match u with
  | [] => exact gridRes_createLonLatGridFromBB a b c d r g h
  | [Ext.ruv] => exact gridRes_createLonLatGridFromBB a b c d r g h
  | [Ext.cradAscii] => exact gridRes_createLonLatGridFromBBwera a b c d r g h
  | x :: y :: t => cases x <;> exact gridRes_createLonLatGridFromBB a b c d r g h

theorem radialsNotYetCombined_ne_nil (combRad : List RadialRow) (nd : NetworkData)
    (h : radialsNotYetCombined combRad nd = true) : combRad ≠ [] := by
  intro hnil
  subst hnil
  simp [radialsNotYetCombined] at h

theorem performRadialCombination_ok (combRad : List RadialRow) (nd : NetworkData)
    (g : Grid)
    (hen : nd.radial_combination = 1)
    (hch : radialsNotYetCombined combRad nd = true)
    (hgrid : selectGrid (uniqueList (combRad.map fun r => r.extension))
        nd.geospatial_lon_min nd.geospatial_lon_max nd.geospatial_lat_min
        nd.geospatial_lat_max (nd.grid_resolution * 1000) = Except.ok g)
    (hlen : (uniqueList (combRad.map fun r => r.extension)).length ≤ 1)
    (hparse : strptimeYmdHMS combRad.headI.datetime = some combRad.headI.datetime) :
    performRadialCombination combRad nd
      = (Except.ok (combinedTotal combRad nd g), combRad) := by
  have hlen2 : ¬ (uniqueList (combRad.map fun r => r.extension)).length > 1 := by omega
  unfold performRadialCombination
  simp [hen, hch, hgrid, hlen2, hparse, combinedTotal, combineRadials,
    addBoundingBoxMetadata]

theorem performRadialCombination_ok_inv (combRad : List RadialRow) (nd : NetworkData)
    (T : Total) (hok : (performRadialCombination combRad nd).1 = Except.ok T) :
    nd.radial_combination = 1 ∧ radialsNotYetCombined combRad nd = true
    ∧ (uniqueList (combRad.map fun r => r.extension)).length ≤ 1
    ∧ ∃ g, selectGrid (uniqueList (combRad.map fun r => r.extension))
          nd.geospatial_lon_min nd.geospatial_lon_max nd.geospatial_lat_min
          nd.geospatial_lat_max (nd.grid_resolution * 1000) = Except.ok g
        ∧ T = combinedTotal combRad nd g := by
  by_cases hen : nd.radial_combination = 1
  · by_cases hch : radialsNotYetCombined combRad nd = true
    · rcases hg : selectGrid (uniqueList (combRad.map fun r => r.extension))
          nd.geospatial_lon_min nd.geospatial_lon_max nd.geospatial_lat_min
          nd.geospatial_lat_max (nd.grid_resolution * 1000) with e | g
      · unfold performRadialCombination at hok
        simp [hen, hch, hg] at hok
      · by_cases hlen : (uniqueList (combRad.map fun r => r.extension)).length > 1
        · unfold performRadialCombination at hok
          simp [hen, hch, hg, hlen] at hok
        · rcases hp : strptimeYmdHMS combRad.headI.datetime with _ | ts
          · unfold performRadialCombination at hok
            simp [hen, hch, hg, hlen, hp] at hok
          · have hts : ts = combRad.headI.datetime := strptimeYmdHMS_eq _ _ hp
            subst hts
            have heq := performRadialCombination_ok combRad nd g hen hch hg (by omega) hp
            rw [heq] at hok
            simp at hok
            exact ⟨hen, hch, by omega, g, rfl, hok.symm⟩
    · unfold performRadialCombination at hok
      simp [hen, hch] at hok
  · unfold performRadialCombination at hok
    simp [hen, beq_iff_eq] at hok

theorem performRadialCombination_not_unbound (combRad : List RadialRow)
    (nd : NetworkData)
    (hen : nd.radial_combination = 1)
    (hch : radialsNotYetCombined combRad nd = true) :
    (performRadialCombination combRad nd).1
      ≠ Except.error (PyError.unboundLocalError "T") := by
  rcases hg : selectGrid (uniqueList (combRad.map fun r => r.extension))
      nd.geospatial_lon_min nd.geospatial_lon_max nd.geospatial_lat_min
      nd.geospatial_lat_max (nd.grid_resolution * 1000) with e | g
  · have he : e = PyError.invalidGeometry := selectGrid_error _ _ _ _ _ _ _ hg
    subst he
    unfold performRadialCombination
    simp [hen, hch, hg]
  · by_cases hlen : (uniqueList (combRad.map fun r => r.extension)).length > 1
    · unfold performRadialCombination
      simp [hen, hch, hg, hlen]
    · rcases hp : strptimeYmdHMS combRad.headI.datetime with _ | ts
      · unfold performRadialCombination
        simp [hen, hch, hg, hlen, hp]
      · unfold performRadialCombination
        simp [hen, hch, hg, hlen, hp]

theorem performRadialCombination_state (combRad : List RadialRow) (nd : NetworkData) :
    (performRadialCombination combRad nd).2 = combRad := by
  simp only [performRadialCombination]
  repeat' split
  all_goals rfl

theorem performRadialCombination_mixed (combRad : List RadialRow) (nd : NetworkData)
    (g : Grid)
    (hen : nd.radial_combination = 1)
    (hch : radialsNotYetCombined combRad nd = true)
    (hgrid : selectGrid (uniqueList (combRad.map fun r => r.extension))
        nd.geospatial_lon_min nd.geospatial_lon_max nd.geospatial_lat_min
        nd.geospatial_lat_max (nd.grid_resolution * 1000) = Except.ok g)
    (hlen : (uniqueList (combRad.map fun r => r.extension)).length > 1) :
    performRadialCombination combRad nd
      = (Except.error (PyError.nameError "combRadcombRad"), combRad) := by
  unfold performRadialCombination
  simp [hen, hch, hgrid, hlen]

theorem selectGrid_obsWera :
    selectGrid (uniqueList (obsWera.map fun r => r.extension))
      netStd.geospatial_lon_min netStd.geospatial_lon_max netStd.geospatial_lat_min
      netStd.geospatial_lat_max (netStd.grid_resolution * 1000)
      = Except.ok (Grid.fromBBwera 7 10 43 44 (2 * 1000)) := by
  show createLonLatGridFromBBwera 7 10 43 44 (2 * 1000) = _
  unfold createLonLatGridFromBBwera
  rw [if_neg (show ¬ ((7:ℚ) ≥ 10 ∨ (43:ℚ) ≥ 44 ∨ (2:ℚ) * 1000 ≤ 0) by norm_num)]

theorem selectGrid_obsPending :
    selectGrid (uniqueList (obsPending.map fun r => r.extension))
      netStd.geospatial_lon_min netStd.geospatial_lon_max netStd.geospatial_lat_min
      netStd.geospatial_lat_max (netStd.grid_resolution * 1000)
      = Except.ok (Grid.fromBB 7 10 43 44 (2 * 1000)) := by
  show createLonLatGridFromBB 7 10 43 44 (2 * 1000) = _
  unfold createLonLatGridFromBB
  rw [if_neg (show ¬ ((7:ℚ) ≥ 10 ∨ (43:ℚ) ≥ 44 ∨ (2:ℚ) * 1000 ≤ 0) by norm_num)]

theorem selectGrid_obsMixed :
    selectGrid (uniqueList (obsMixed.map fun r => r.extension))
      netStd.geospatial_lon_min netStd.geospatial_lon_max netStd.geospatial_lat_min
      netStd.geospatial_lat_max (netStd.grid_resolution * 1000)
      = Except.ok (Grid.fromBB 7 10 43 44 (2 * 1000)) := by
  show createLonLatGridFromBB 7 10 43 44 (2 * 1000) = _
  unfold createLonLatGridFromBB
  rw [if_neg (show ¬ ((7:ℚ) ≥ 10 ∨ (43:ℚ) ≥ 44 ∨ (2:ℚ) * 1000 ≤ 0) by norm_num)]

theorem perform_obsWera_eq :
    performRadialCombination obsWera netStd
      = (Except.ok (combinedTotal obsWera netStd (Grid.fromBBwera 7 10 43 44 (2 * 1000))),
         obsWera) :=
  performRadialCombination_ok obsWera netStd (Grid.fromBBwera 7 10 43 44 (2 * 1000))
    rfl (by decide) selectGrid_obsWera (by decide) rfl

theorem totWera_eq :
    totWera = combinedTotal obsWera netStd (Grid.fromBBwera 7 10 43 44 (2 * 1000)) := by
  unfold totWera
  rw [perform_obsWera_eq]
  rfl

theorem perform_obsPending_eq :
    performRadialCombination obsPending netStd
      = (Except.ok (combinedTotal obsPending netStd (Grid.fromBB 7 10 43 44 (2 * 1000))),
         obsPending) :=
  performRadialCombination_ok obsPending netStd (Grid.fromBB 7 10 43 44 (2 * 1000))
    rfl (by decide) selectGrid_obsPending (by decide) rfl

/-- C1: with radial combination enabled, `performRadialCombination` proceeds
past the eligibility check of funcs.py line 152 (it does not raise
`UnboundLocalError` on `T`) exactly when that check holds, and the check
requires, for any network other than HFR-WesternItaly, that some candidate
observation have `NRT_combined_flag` unset, while for HFR-WesternItaly it
instead requires that some candidate have
`NRT_processed_flag_integrated_network` unset, regardless of the combined
flag. -/
theorem eligibility_rule (combRad : List RadialRow) (nd : NetworkData)
    (hen : nd.radial_combination = 1) :
    ((performRadialCombination combRad nd).1 ≠ Except.error (PyError.unboundLocalError "T")
      ↔ radialsNotYetCombined combRad nd = true)
  ∧ (nd.network_id ≠ "HFR-WesternItaly" →
      (radialsNotYetCombined combRad nd = true ↔ ∃ r ∈ combRad, r.NRT_combined_flag = 0))
  ∧ (nd.network_id = "HFR-WesternItaly" →
      (radialsNotYetCombined combRad nd = true
        ↔ ∃ r ∈ combRad, r.NRT_processed_flag_integrated_network = 0)) := by
  refine ⟨?_, ?_, ?_⟩
  · by_cases hch : radialsNotYetCombined combRad nd = true
    · simp only [hch, iff_true]
      exact performRadialCombination_not_unbound combRad nd hen hch
    · unfold performRadialCombination
      simp [hen, hch]
  · intro hid
    simp [radialsNotYetCombined, hid, List.any_eq_true, beq_iff_eq, bne_iff_ne]
  · intro hid
    simp [radialsNotYetCombined, hid, List.any_eq_true, beq_iff_eq, bne_iff_ne]

theorem eligibility_rule_witness :
    (performRadialCombination obsEligDefault netStd).1
      ≠ Except.error (PyError.unboundLocalError "T") :=
  ((eligibility_rule obsEligDefault netStd rfl).1).mpr (by decide)

/-- C2: on a mixed-format observation set the rescaling loop of funcs.py,
line 174, iterates over the undefined name `combRadcombRad`; the call raises
`NameError` there, and no WERA `VELO` sample is multiplied by 100 nor any
`HCSS` sample by 10000 — the observations come back unchanged. -/
theorem mixed_format_rescaling_name_error :
    performRadialCombination obsMixed netStd
      = (Except.error (PyError.nameError "combRadcombRad"), obsMixed) :=
  performRadialCombination_mixed obsMixed netStd (Grid.fromBB 7 10 43 44 (2 * 1000))
    rfl (by decide) selectGrid_obsMixed (by decide)

/-- C3: when no combination is performed — combination disabled for the
network, or no candidate eligible — the function does not return the empty
`combTot` holder it created at line 147: it executes `return T` (line 202)
with `T` never assigned, raising `UnboundLocalError`. -/
theorem no_combination_unbound_local :
    (performRadialCombination obsDone netDisabled).1
        = Except.error (PyError.unboundLocalError "T")
  ∧ (performRadialCombination obsDone netStd).1
        = Except.error (PyError.unboundLocalError "T") :=
  ⟨rfl, rfl⟩

/-- C4: whenever `performRadialCombination` produces a Total, its
`is_combined` flag is true and its `is_wera` flag is true exactly when every
contributing observation carries the `.crad_ascii` format; in particular any
successful set containing a `.ruv` observation yields `is_wera = false`. -/
theorem total_result_flags (combRad : List RadialRow) (nd : NetworkData) (T : Total)
    (hok : (performRadialCombination combRad nd).1 = Except.ok T) :
    T.is_combined = true
  ∧ (T.is_wera = true ↔ ∀ r ∈ combRad, r.extension = Ext.cradAscii) := by
  obtain ⟨hen, hch, hlen, g, hg, hT⟩ := performRadialCombination_ok_inv combRad nd T hok
  subst hT
  refine ⟨rfl, ?_⟩
  have hwera : (combinedTotal combRad nd g).is_wera
      = isWeraFlag (uniqueList (combRad.map fun r => r.extension)) := rfl
  rw [hwera, isWeraFlag_eq_true_iff]
  constructor
  · intro hu r hr
    have hmem : r.extension ∈ uniqueList (combRad.map fun x => x.extension) := by
      rw [mem_uniqueList]
      exact List.mem_map_of_mem _ hr
    rw [hu] at hmem
    simpa using hmem
  · intro hall
    apply uniqueList_all_eq
    · have h1 : combRad ≠ [] := radialsNotYetCombined_ne_nil combRad nd hch
      simpa using h1
    · intro x hx
      obtain ⟨r, hr, hrx⟩ := List.mem_map.mp hx
      rw [← hrx]
      exact hall r hr

theorem total_result_flags_witness :
    totWera.is_combined = true
  ∧ (totWera.is_wera = true ↔ ∀ r ∈ obsWera, r.extension = Ext.cradAscii) :=
  total_result_flags obsWera netStd totWera (by rw [perform_obsWera_eq, totWera_eq])

/-- C5: the grid-construction selection of funcs.py, lines 162-170, applied
to the distinct format tags of an observation set: a uniform `.crad_ascii`
set uses the WERA bounding-box method, while a uniform `.ruv` set and any
mixed set use the primary bounding-box method; and on every successful
combination the grid of the produced Total is the one this selection builds
from the network's bounding box at the metre-converted resolution. -/
theorem grid_method_selection (l : List Ext) (lonMin lonMax latMin latMax res : ℚ) :
    (selectGrid (uniqueList l) lonMin lonMax latMin latMax res
      = if l ≠ [] ∧ ∀ e ∈ l, e = Ext.cradAscii
        then createLonLatGridFromBBwera lonMin lonMax latMin latMax res
        else createLonLatGridFromBB lonMin lonMax latMin latMax res)
  ∧ ∀ (combRad : List RadialRow) (nd : NetworkData) (T : Total),
      (performRadialCombination combRad nd).1 = Except.ok T →
      selectGrid (uniqueList (combRad.map fun r => r.extension))
        nd.geospatial_lon_min nd.geospatial_lon_max nd.geospatial_lat_min
        nd.geospatial_lat_max (nd.grid_resolution * 1000) = Except.ok T.grid := by
  constructor
  · by_cases hc : l ≠ [] ∧ ∀ e ∈ l, e = Ext.cradAscii
    · rw [if_pos hc, uniqueList_all_eq l Ext.cradAscii hc.1 hc.2]
      rfl
    · rw [if_neg hc]
      apply selectGrid_of_ne
      intro hu
      apply hc
      constructor
      · intro hnil
        subst hnil
        simp [uniqueList] at hu
      · intro e he
        have hmem : e ∈ uniqueList l := (mem_uniqueList e l).mpr he
        rw [hu] at hmem
        simpa using hmem
  · intro combRad nd T hok
    obtain ⟨hen, hch, hlen, g, hg, hT⟩ := performRadialCombination_ok_inv combRad nd T hok
    subst hT
    exact hg

theorem grid_method_selection_witness :
    selectGrid (uniqueList (obsWera.map fun r => r.extension))
      netStd.geospatial_lon_min netStd.geospatial_lon_max netStd.geospatial_lat_min
      netStd.geospatial_lat_max (netStd.grid_resolution * 1000) = Except.ok totWera.grid :=
  (grid_method_selection [] 0 0 0 0 0).2 obsWera netStd totWera
    (by rw [perform_obsWera_eq, totWera_eq])

/-- C6: a successful `performRadialCombination` passes the network's grid
resolution and combination search radius converted from km to metres
(multiplied by 1000) to the grid construction and to the least-squares
combination, and attaches bounding-box metadata whose resolution is converted
back to km (metres divided by 1000, recovering the stored value). -/
theorem unit_conversions (combRad : List RadialRow) (nd : NetworkData) (T : Total)
    (hok : (performRadialCombination combRad nd).1 = Except.ok T) :
    T.gridResolution = nd.grid_resolution * 1000
  ∧ gridRes T.grid = nd.grid_resolution * 1000
  ∧ T.searchRadius = nd.combination_search_radius * 1000
  ∧ T.gridResolutionKm = nd.grid_resolution
  ∧ T.lonMin = nd.geospatial_lon_min ∧ T.lonMax = nd.geospatial_lon_max
  ∧ T.latMin = nd.geospatial_lat_min ∧ T.latMax = nd.geospatial_lat_max := by
  obtain ⟨hen, hch, hlen, g, hg, hT⟩ := performRadialCombination_ok_inv combRad nd T hok
  subst hT
  refine ⟨rfl, ?_, rfl, ?_, rfl, rfl, rfl, rfl⟩
  · show gridRes g = nd.grid_resolution * 1000
    exact gridRes_selectGrid _ _ _ _ _ _ g hg
  · show nd.grid_resolution * 1000 / 1000 = nd.grid_resolution
    rw [mul_div_assoc]
    norm_num

theorem unit_conversions_witness :
    totWera.gridResolution = netStd.grid_resolution * 1000
  ∧ gridRes totWera.grid = netStd.grid_resolution * 1000
  ∧ totWera.searchRadius = netStd.combination_search_radius * 1000
  ∧ totWera.gridResolutionKm = netStd.grid_resolution
  ∧ totWera.lonMin = netStd.geospatial_lon_min ∧ totWera.lonMax = netStd.geospatial_lon_max
  ∧ totWera.latMin = netStd.geospatial_lat_min ∧ totWera.latMax = netStd.geospatial_lat_max :=
  unit_conversions obsWera netStd totWera (by rw [perform_obsWera_eq, totWera_eq])

/-- C7: a successful combination cycle does not transition the contributing
observations' lifecycle flags: on two pending CODAR observations the function
produces a Total, yet it returns no per-observation flag information (the
`combTot` holder of line 147 is never filled nor returned) and every
`NRT_combined_flag` is still 0 afterwards. -/
theorem lifecycle_flags_not_updated :
    isOkResult (performRadialCombination obsPending netStd).1 = true
  ∧ ((performRadialCombination obsPending netStd).2.map fun r => r.NRT_combined_flag)
        = [0, 0] := by
  rw [perform_obsPending_eq]
  exact ⟨rfl, rfl⟩

/-- C8: for an observation set whose members all share one format, the
harmonization step of funcs.py, lines 172-176, is a no-op and raises no
error: its `NameError` is never raised, the observations pass through with
every `VELO` and `HCSS` sample unchanged, and whenever the steps surrounding
it (grid construction, timestamp parse) succeed, the whole combination
succeeds with the unchanged observations reaching the combiner. -/
theorem harmonization_noop (combRad : List RadialRow) (nd : NetworkData) (e : Ext)
    (hen : nd.radial_combination = 1)
    (hch : radialsNotYetCombined combRad nd = true)
    (hall : ∀ r ∈ combRad, r.extension = e) :
    (performRadialCombination combRad nd).1
        ≠ Except.error (PyError.nameError "combRadcombRad")
  ∧ (performRadialCombination combRad nd).2 = combRad
  ∧ ∀ (g : Grid),
      selectGrid (uniqueList (combRad.map fun r => r.extension))
          nd.geospatial_lon_min nd.geospatial_lon_max nd.geospatial_lat_min
          nd.geospatial_lat_max (nd.grid_resolution * 1000) = Except.ok g →
      strptimeYmdHMS combRad.headI.datetime = some combRad.headI.datetime →
      performRadialCombination combRad nd
          = (Except.ok (combinedTotal combRad nd g), combRad)
        ∧ (combinedTotal combRad nd g).obs = combRad := by
  have hne : combRad ≠ [] := radialsNotYetCombined_ne_nil combRad nd hch
  have hu : uniqueList (combRad.map fun r => r.extension) = [e] := by
    apply uniqueList_all_eq
    · simpa using hne
    · intro x hx
      obtain ⟨r, hr, hrx⟩ := List.mem_map.mp hx
      rw [← hrx]
      exact hall r hr
  have hlen : (uniqueList (combRad.map fun r => r.extension)).length ≤ 1 := by
    rw [hu]
    simp
  have hlen2 : ¬ (uniqueList (combRad.map fun r => r.extension)).length > 1 := by omega
  refine ⟨?_, performRadialCombination_state combRad nd, ?_⟩
  · rcases hg : selectGrid (uniqueList (combRad.map fun r => r.extension))
        nd.geospatial_lon_min nd.geospatial_lon_max nd.geospatial_lat_min
        nd.geospatial_lat_max (nd.grid_resolution * 1000) with e2 | g
    · have he2 : e2 = PyError.invalidGeometry := selectGrid_error _ _ _ _ _ _ _ hg
      subst he2
      unfold performRadialCombination
      simp [hen, hch, hg]
    · rcases hp : strptimeYmdHMS combRad.headI.datetime with _ | ts
      · unfold performRadialCombination
        simp [hen, hch, hg, hlen2, hp]
      · unfold performRadialCombination
        simp [hen, hch, hg, hlen2, hp]
  · intro g hg hp
    exact ⟨performRadialCombination_ok combRad nd g hen hch hg hlen hp, rfl⟩

theorem harmonization_noop_witness :
    (performRadialCombination obsWera netStd).1
        ≠ Except.error (PyError.nameError "combRadcombRad")
  ∧ performRadialCombination obsWera netStd
        = (Except.ok (combinedTotal obsWera netStd (Grid.fromBBwera 7 10 43 44 (2 * 1000))),
           obsWera)
  ∧ (combinedTotal obsWera netStd (Grid.fromBBwera 7 10 43 44 (2 * 1000))).obs = obsWera := by
  have h := harmonization_noop obsWera netStd Ext.cradAscii rfl (by decide) (by decide)
  have h3 := h.2.2 (Grid.fromBBwera 7 10 43 44 (2 * 1000)) selectGrid_obsWera rfl
  exact ⟨h.1, h3.1, h3.2⟩

theorem stationRows_flags_zero (networkID now : String) (wc : Option String)
    (st : StationRec) (row : RadialFileRow)
    (hrow : row ∈ stationRows networkID now wc st) :
    row.NRT_processed_flag = 0 ∧ row.NRT_processed_flag_integrated_network = 0
  ∧ row.NRT_combined_flag = 0 := by
  unfold stationRows at hrow
  by_cases h1 : trimStr st.radial_input_folder_path == ""
  · simp [h1] at hrow
  · by_cases h2 : st.folder_exists
    · cases hw : effectiveWildcard wc st with
      | none => simp [h1, h2, hw] at hrow
      | some w =>
          simp only [h1, h2, hw, Bool.false_eq_true, if_false, Bool.not_true,
            List.mem_filterMap] at hrow
          obtain ⟨f, hf, hfr⟩ := hrow
          cases hinfo : f.info with
          | none =>
              unfold rowOfFile at hfr
              rw [hinfo] at hfr
              exact absurd hfr (by simp)
          | some i =>
              unfold rowOfFile at hfr
              rw [hinfo] at hfr
              have hr2 := Option.some.inj hfr
              subst hr2
              exact ⟨rfl, rfl, rfl⟩
    · simp [h1, h2] at hrow

theorem selectRadialsAux_flags_zero (networkID now : String) (l : List StationRec) :
    ∀ (wc : Option String) (row : RadialFileRow),
      row ∈ selectRadialsAux networkID now l wc →
      row.NRT_processed_flag = 0 ∧ row.NRT_processed_flag_integrated_network = 0
      ∧ row.NRT_combined_flag = 0 := by
  induction l with
  | nil =>
      intro wc row h
      simp [selectRadialsAux] at h
  | cons st rest ih =>
      intro wc row h
      simp only [selectRadialsAux, List.mem_append] at h
      rcases h with h1 | h2
      · exact stationRows_flags_zero networkID now wc st row h1
      · exact ih (stationWildcard wc st) row h2

/-- C9: every row that `selectRadials` appends to the returned DataFrame has
its three lifecycle flags — `NRT_processed_flag`,
`NRT_processed_flag_integrated_network` and `NRT_combined_flag` —
initialized to 0. -/
theorem selectRadials_flags_zero (networkID now : String)
    (stationData : List StationRec) (row : RadialFileRow)
    (hmem : row ∈ selectRadials networkID now stationData) :
    row.NRT_processed_flag = 0 ∧ row.NRT_processed_flag_integrated_network = 0
  ∧ row.NRT_combined_flag = 0 :=
  selectRadialsAux_flags_zero networkID now stationData none row hmem

theorem selectRadials_flags_zero_witness :
    rowGood.NRT_processed_flag = 0 ∧ rowGood.NRT_processed_flag_integrated_network = 0
  ∧ rowGood.NRT_combined_flag = 0 :=
  selectRadials_flags_zero "HFR-TirLig" "2024-06-02 00:00:00" [stationGood] rowGood
    (by decide)

theorem stationRows_update_files (networkID now : String) (wc : Option String)
    (st : StationRec) (X : List FileRec) :
    stationRows networkID now wc { st with files := X }
      = if trimStr st.radial_input_folder_path == "" then []
        else if !st.folder_exists then []
        else
          match effectiveWildcard wc st with
          | none => []
          | some w => (globFiles w X).filterMap (rowOfFile networkID now st.station_id) :=
  rfl

theorem stationRows_skip_file (networkID now : String) (wc : Option String)
    (st : StationRec) (fs1 fs2 : List FileRec) (f : FileRec) (hf : f.info = none) :
    stationRows networkID now wc { st with files := fs1 ++ f :: fs2 }
      = stationRows networkID now wc { st with files := fs1 ++ fs2 } := by
  rw [stationRows_update_files, stationRows_update_files]
  by_cases h1 : trimStr st.radial_input_folder_path == ""
  · simp [h1]
  · by_cases h2 : st.folder_exists
    · cases hw : effectiveWildcard wc st with
      | none => simp [h1, h2, hw]
      | some w =>
          simp only [h1, h2, hw, Bool.false_eq_true, if_false, Bool.not_true]
          by_cases hp : ("**/*" ++ f.fileExt) == w
          · simp [globFiles, List.filter_append, List.filter_cons, hp,
              List.filterMap_append, List.filterMap_cons, rowOfFile, hf]
          · simp [globFiles, List.filter_append, List.filter_cons, hp,
              List.filterMap_append]
    · simp [h1, h2]

theorem selectRadialsAux_skip_file (networkID now : String) (post : List StationRec)
    (st : StationRec) (fs1 fs2 : List FileRec) (f : FileRec) (hf : f.info = none) :
    ∀ (pre : List StationRec) (wc : Option String),
      selectRadialsAux networkID now (pre ++ { st with files := fs1 ++ f :: fs2 } :: post) wc
        = selectRadialsAux networkID now (pre ++ { st with files := fs1 ++ fs2 } :: post) wc := by
  intro pre
  induction pre with
  | nil =>
      intro wc
      simp only [List.nil_append, selectRadialsAux]
      rw [stationRows_skip_file networkID now wc st fs1 fs2 f hf]
      have hwc : stationWildcard wc { st with files := fs1 ++ f :: fs2 }
          = stationWildcard wc { st with files := fs1 ++ fs2 } := rfl
      rw [hwc]
  | cons p rest ih =>
      intro wc
      simp only [List.cons_append, selectRadialsAux, List.append_eq]
      rw [ih (stationWildcard wc p)]

theorem stationRows_unbound (networkID now : String) (bad : StationRec)
    (hbad : fileTypeWildcard bad.manufacturer = none) :
    stationRows networkID now none bad = [] := by
  unfold stationRows
  by_cases b1 : trimStr bad.radial_input_folder_path == ""
  · simp [b1]
  · by_cases b2 : bad.folder_exists
    · have he : effectiveWildcard none bad = none := by
        unfold effectiveWildcard
        rw [hbad]
      simp [b1, b2, he]
    · simp [b1, b2]

theorem stationWildcard_unbound (bad : StationRec)
    (hbad : fileTypeWildcard bad.manufacturer = none) :
    stationWildcard none bad = none := by
  unfold stationWildcard
  by_cases b1 : trimStr bad.radial_input_folder_path == ""
  · simp [b1]
  · by_cases b2 : bad.folder_exists
    · have he : effectiveWildcard none bad = none := by
        unfold effectiveWildcard
        rw [hbad]
      simp [b1, b2, he]
    · simp [b1, b2]

theorem selectRadialsAux_skip_station (networkID now : String) (post : List StationRec)
    (bad : StationRec) (hbad : fileTypeWildcard bad.manufacturer = none) :
    ∀ (pre : List StationRec) (wc : Option String),
      wildcardAfter wc pre = none →
      selectRadialsAux networkID now (pre ++ bad :: post) wc
        = selectRadialsAux networkID now (pre ++ post) wc := by
  intro pre
  induction pre with
  | nil =>
      intro wc hwc
      simp only [wildcardAfter] at hwc
      subst hwc
      simp only [List.nil_append, selectRadialsAux]
      rw [stationRows_unbound networkID now bad hbad,
        stationWildcard_unbound bad hbad]
      simp
  | cons p rest ih =>
      intro wc hwc
      simp only [wildcardAfter] at hwc
      simp only [List.cons_append, selectRadialsAux, List.append_eq]
      rw [ih (stationWildcard wc p) hwc]

/-- C10: failure isolation in `selectRadials`: a file whose parsing raises is
skipped by the inner `except` (line 293) — removing it from a station’s
listing leaves the returned rows unchanged — and a station on which the loop
body raises `NameError` — manufacturer matching no handled family while the
`fileTypeWildcard` local is still unbound — is skipped by the outer `except`
(line 296), contributes nothing and leaves the rows of the stations before
and after it unchanged. -/
theorem selectRadials_failure_isolation (networkID now : String) :
    (∀ (pre post : List StationRec) (st : StationRec) (fs1 fs2 : List FileRec)
        (f : FileRec),
      f.info = none →
      selectRadials networkID now (pre ++ { st with files := fs1 ++ f :: fs2 } :: post)
        = selectRadials networkID now (pre ++ { st with files := fs1 ++ fs2 } :: post))
  ∧ (∀ (pre post : List StationRec) (bad : StationRec),
      fileTypeWildcard bad.manufacturer = none →
      wildcardAfter none pre = none →
      selectRadials networkID now (pre ++ bad :: post)
        = selectRadials networkID now (pre ++ post)) := by
  constructor
  · intro pre post st fs1 fs2 f hf
    exact selectRadialsAux_skip_file networkID now post st fs1 fs2 f hf pre none
  · intro pre post bad hbad hwc
    exact selectRadialsAux_skip_station networkID now post bad hbad pre none hwc

theorem selectRadials_failure_isolation_witness :
    selectRadials "HFR-TirLig" "2024-06-02 00:00:00"
        ({ stationGood with files := [fileBad, fileGood] } :: [stationGood])
      = selectRadials "HFR-TirLig" "2024-06-02 00:00:00"
        ({ stationGood with files := [fileGood] } :: [stationGood])
  ∧ selectRadials "HFR-TirLig" "2024-06-02 00:00:00" [stationBadMan, stationGood]
      = selectRadials "HFR-TirLig" "2024-06-02 00:00:00" [stationGood] := by
  have h := selectRadials_failure_isolation "HFR-TirLig" "2024-06-02 00:00:00"
  exact ⟨h.1 [] [stationGood] stationGood [] [fileGood] fileBad rfl,
    h.2 [] [stationGood] stationBadMan (by decide) rfl⟩

end Funcs
